import Mathlib

/-!
# Converge collaboration server — shallow embedding

This file embeds the collaboration session engine of the Converge
repository (the `CollaborationServer` class of the Socket.IO server, the
`CRDTDocument`/`DocumentStore` wrapper and the `checkDocumentAccess`
helper) as pure Lean functions, and proves properties of the room
lifecycle, update propagation, persistence scheduling and resync paths.

Modelling conventions:
* JavaScript `Map`s are association lists whose `set` keeps at most one
  entry per key (mirroring the `Map` contract that keys are unique).
* The Yjs CRDT engine is external to the repository and is treated, as in
  the source, as a black box: an encoded update denotes the list of
  primitive operations it carries, together with a well-formedness flag
  (`Y.applyUpdate` throws on malformed input and otherwise merges the
  carried operations); the full encoded state of a document is the list
  of operations merged so far.
* `Date.now()` and `setTimeout` are modelled by explicit `now : Nat`
  arguments and by storing the pending deadline of the debounced save
  timer; expiry of that timer is a separate step (`fireTimerIfDue`).
* Socket.IO emits are collected as a list of `Event`s; `socket.emit` is
  an event to one socket id, `socket.to(room).emit` an event to a room
  excluding the sender, `io.to(room).emit` an event to the whole room.
-/

/-- Association map modelling a JavaScript `Map`: a list of key/value
pairs in which `set` removes any previous binding of the key. -/
def AssocMap (α β : Type) : Type := List (α × β)

instance {α β : Type} [DecidableEq α] [DecidableEq β] : DecidableEq (AssocMap α β) :=
  inferInstanceAs (DecidableEq (List (α × β)))

namespace AssocMap

variable {α β : Type} [DecidableEq α]

def empty : AssocMap α β := []

/-- `Map.get`: the value bound to `k`, if any. -/
def get : AssocMap α β → α → Option β
  | [], _ => none
  | (k', v) :: m, k => if k' = k then some v else get m k

/-- `Map.delete`. -/
def erase : AssocMap α β → α → AssocMap α β
  | [], _ => []
  | (k', v) :: m, k => if k' = k then erase m k else (k', v) :: erase m k

/-- `Map.set`: bind `k` to `v`, dropping any previous binding of `k`. -/
def set (m : AssocMap α β) (k : α) (v : β) : AssocMap α β :=
  (k, v) :: m.erase k

/-- `Map.size`. -/
def size (m : AssocMap α β) : Nat := List.length m

/-- `Map.size === 0`. -/
def isEmpty (m : AssocMap α β) : Bool := List.isEmpty m

/-- The list of values, as `Array.from(m.values())`. -/
def values (m : AssocMap α β) : List β := List.map (·.2) m

/-- Number of entries bound to key `k`. -/
def countKey (m : AssocMap α β) (k : α) : Nat :=
  List.countP (fun p => decide (p.1 = k)) m

@[simp] theorem get_empty (k : α) : (empty : AssocMap α β).get k = none := rfl

@[simp] theorem get_set_self (m : AssocMap α β) (k : α) (v : β) :
    (m.set k v).get k = some v := by
  simp [get, set]

theorem get_erase_ne (m : AssocMap α β) (k k' : α) (h : k ≠ k') :
    (m.erase k).get k' = m.get k' := by
  induction m with
  | nil => rfl
  | cons p m ih =>
    obtain ⟨a, b⟩ := p
    by_cases ha : a = k
    · subst ha
      simp only [erase, if_pos rfl, get, if_neg h]
      exact ih
    · simp only [erase, if_neg ha, get]
      by_cases ha' : a = k'
      · simp [ha']
      · simp only [if_neg ha']
        exact ih

@[simp] theorem get_erase_self (m : AssocMap α β) (k : α) :
    (m.erase k).get k = none := by
  induction m with
  | nil => rfl
  | cons p m ih =>
    obtain ⟨a, b⟩ := p
    by_cases ha : a = k
    · simpa [erase, ha] using ih
    · simp only [erase, if_neg ha, get, if_neg ha]
      exact ih

theorem get_set_ne (m : AssocMap α β) (k k' : α) (v : β) (h : k ≠ k') :
    (m.set k v).get k' = m.get k' := by
  simp only [set, get, if_neg h]
  exact get_erase_ne m k k' h

@[simp] theorem countKey_erase_self (m : AssocMap α β) (k : α) :
    (m.erase k).countKey k = 0 := by
  induction m with
  | nil => rfl
  | cons p m ih =>
    obtain ⟨a, b⟩ := p
    by_cases ha : a = k
    · simpa [erase, ha] using ih
    · simp only [erase, if_neg ha, countKey, List.countP_cons] at *
      simp [ha, ih]

/-- `set` leaves exactly one entry whose key is `k`. -/
theorem countKey_set (m : AssocMap α β) (k : α) (v : β) :
    (m.set k v).countKey k = 1 := by
  have h0 := countKey_erase_self m k
  simp only [set, countKey, List.countP_cons] at *
  simp [h0]

end AssocMap

/-! ## Wire bytes and the CRDT engine (external black box) -/

/-- An opaque encoded update / encoded state on the wire.  The engine is
external; we record the denotation the server relies on: the primitive
operations carried, and whether the engine accepts the bytes
(`Y.applyUpdate` throws on malformed input). -/
structure Bytes where
  ops : List Nat
  wf : Bool
deriving DecidableEq, Repr

/-- The abstract state of a `CRDTDocument`: the operations merged so far. -/
abbrev DocContent : Type := List Nat

/-- `CRDTDocument.applyUpdate` (`Y.applyUpdate`): rejects malformed input
without touching the state, otherwise merges the carried operations. -/
def applyUpdate (c : DocContent) (u : Bytes) : Option DocContent :=
  if u.wf then some (c ++ u.ops) else none

/-- `CRDTDocument.getState` (`Y.encodeStateAsUpdate`): one well-formed
update carrying the whole state. -/
def encodeState (c : DocContent) : Bytes := ⟨c, true⟩

/-- The `CRDTDocument` constructor: a fresh document, with the initial
encoded state applied when it is present and non-empty. -/
def newCRDTDocument (initialState : Option Bytes) : DocContent :=
  match initialState with
  | some b => if b.ops.length > 0 then ([] : DocContent) ++ b.ops else []
  | none => []

/-! ## Roles, users, payloads, events -/

/-- The Prisma `Role` enum. -/
inductive Role where
  | OWNER | EDITOR | VIEWER
deriving DecidableEq, Repr

/-- `CursorPosition`. -/
structure CursorPosition where
  anchor : Nat
  head : Nat
deriving DecidableEq, Repr

/-- `SafeUser` (the fields the socket server selects). -/
structure SafeUser where
  id : String
  email : String
  name : String
  avatar : Option String
  color : String
deriving DecidableEq, Repr

/-- `RoomUser`: a roster entry. -/
structure RoomUser where
  id : String
  name : String
  color : String
  avatar : Option String
  role : Role
  cursor : Option CursorPosition
  isOnline : Bool
deriving DecidableEq, Repr

/-- An `AuthenticatedSocket`: the handle the core holds. -/
structure Socket where
  id : String
  userId : String
  user : SafeUser
deriving DecidableEq, Repr

/-- `UpdateOperationPayload`. -/
structure UpdateOperationPayload where
  documentId : String
  update : Bytes
  clientId : Nat
  timestamp : Nat
deriving DecidableEq, Repr

/-- `CursorPresencePayload`. -/
structure CursorPresencePayload where
  documentId : String
  userId : String
  cursor : Option CursorPosition
  userName : String
  userColor : String
deriving DecidableEq, Repr

/-- `TypingIndicatorPayload`. -/
structure TypingIndicatorPayload where
  documentId : String
  userId : String
  isTyping : Bool
deriving DecidableEq, Repr

/-- `RoomJoinedPayload`. -/
structure RoomJoinedPayload where
  documentId : String
  docId : String
  docTitle : String
  docVersion : Nat
  state : Bytes
  users : List RoomUser
  role : Role
deriving DecidableEq, Repr

/-- A Socket.IO emit performed by the server. -/
inductive Event where
  /-- `socket.emit(ERROR, {message})`. -/
  | errorTo (socketId : String) (message : String)
  /-- `socket.emit(ROOM_JOINED, payload)`. -/
  | roomJoined (socketId : String) (payload : RoomJoinedPayload)
  /-- `socket.to(roomId).emit(USER_JOINED, {user})`. -/
  | userJoined (roomId : String) (exceptSocket : String) (user : RoomUser)
  /-- `socket.to(roomId).emit(USER_LEFT, {userId})`. -/
  | userLeft (roomId : String) (exceptSocket : String) (userId : String)
  /-- `socket.to(roomId).emit(UPDATE_OPERATION, ...)`. -/
  | updateOp (roomId : String) (exceptSocket : String) (documentId : String)
      (update : Bytes) (clientId : Nat) (timestamp : Nat) (userId : String)
  /-- `socket.emit(SYNC_STATE, {documentId, state, version})`. -/
  | syncState (socketId : String) (documentId : String) (state : Bytes) (version : Nat)
  /-- `io.to(roomId).emit(DOCUMENT_SAVED, {documentId, savedAt})`. -/
  | documentSaved (roomId : String) (documentId : String) (savedAt : Nat)
  /-- `socket.to(roomId).emit(CURSOR_PRESENCE, ...)`. -/
  | cursorPresence (roomId : String) (exceptSocket : String)
      (payload : CursorPresencePayload) (userId : String)
  /-- `socket.to(roomId).emit(TYPING_INDICATOR, ...)`. -/
  | typingIndicator (roomId : String) (exceptSocket : String)
      (payload : TypingIndicatorPayload) (userId : String)
deriving DecidableEq, Repr

/-! ## The database (Prisma) -/

/-- A row of the `document` table (the columns the server touches). -/
structure DbDocument where
  id : String
  title : String
  content : Option Bytes
  version : Nat
  ownerId : String
  isPublic : Bool
deriving DecidableEq, Repr

/-- A row of the `operation` table as created by `saveDocument`. -/
structure OperationRecord where
  documentId : String
  userId : String
  data : Bytes
  version : Nat
deriving DecidableEq, Repr

/-- A row of the `snapshot` table as created by `saveDocument`. -/
structure SnapshotRecord where
  documentId : String
  data : Bytes
  version : Nat
deriving DecidableEq, Repr

/-- The durable store. -/
structure Database where
  documents : AssocMap String DbDocument
  collaborators : AssocMap (String × String) Role
  operations : List OperationRecord
  snapshots : List SnapshotRecord
deriving DecidableEq

/-! ## Server state -/

/-- `RoomState` (the `document` field of the source aliases the
`DocumentStore` entry for `documentId`; the shared content lives in
`ServerState.documents`).  `saveTimeout` is the deadline of the pending
debounced save, if one is armed. -/
structure RoomState where
  documentId : String
  users : AssocMap String RoomUser
  lastSaveTime : Nat
  saveTimeout : Option Nat
deriving DecidableEq

/-- The whole `CollaborationServer` state, together with the
`documentStore` singleton and the Prisma database. -/
structure ServerState where
  rooms : AssocMap String RoomState
  userSockets : AssocMap String (List String)
  socketToRoom : AssocMap String String
  documents : AssocMap String DocContent
  db : Database
deriving DecidableEq

def SAVE_DEBOUNCE_MS : Nat := 2000
def SNAPSHOT_INTERVAL_MS : Nat := 60000

/-! ## checkDocumentAccess (lib/auth/session) -/

/-- `checkDocumentAccess userId documentId` — `some role` iff
`{hasAccess: true, role}`. -/
def checkDocumentAccess (db : Database) (userId documentId : String) : Option Role :=
  match db.documents.get documentId with
  | none => none
  | some d =>
    if d.ownerId = userId then some Role.OWNER
    else match db.collaborators.get (userId, documentId) with
      | some r => some r
      | none => if d.isPublic then some Role.VIEWER else none

/-! ## DocumentStore -/

/-- `documentStore.getOrCreate`: returns the existing document, ignoring
`initialState`, or constructs and stores a new one. -/
def storeGetOrCreate (st : ServerState) (documentId : String)
    (initialState : Option Bytes) : DocContent × ServerState :=
  match st.documents.get documentId with
  | some c => (c, st)
  | none =>
    let c := newCRDTDocument initialState
    (c, { st with documents := st.documents.set documentId c })

/-! ## Persistence -/

/-- `getDocumentVersion`. -/
def getDocumentVersion (db : Database) (documentId : String) : Nat :=
  match db.documents.get documentId with
  | some d => d.version
  | none => 0

/-- `saveDocument(roomState)`: write the full encoded state, append an
operation-log record, append a snapshot when more than
`SNAPSHOT_INTERVAL_MS` has elapsed since `lastSaveTime`, refresh
`lastSaveTime` and notify the room.  A throw from the database (the
document row is gone) is caught: nothing is written and no event is
emitted. -/
def saveDocument (st : ServerState) (roomId : String) (now : Nat) :
    ServerState × List Event :=
  match st.rooms.get roomId with
  | none => (st, [])
  | some rs =>
    let state := encodeState ((st.documents.get rs.documentId).getD [])
    match st.db.documents.get rs.documentId with
    | none => (st, [])
    | some d =>
      let d1 : DbDocument := { d with content := some state, version := d.version + 1 }
      let db1 := { st.db with documents := st.db.documents.set rs.documentId d1 }
      let opRec : OperationRecord :=
        { documentId := rs.documentId, userId := "system", data := state,
          version := getDocumentVersion db1 rs.documentId }
      let db2 := { db1 with operations := db1.operations ++ [opRec] }
      let db3 :=
        if now - rs.lastSaveTime > SNAPSHOT_INTERVAL_MS then
          { db2 with snapshots := db2.snapshots ++
              [{ documentId := rs.documentId, data := state,
                 version := getDocumentVersion db2 rs.documentId }] }
        else db2
      let rs1 := { rs with lastSaveTime := now }
      ({ st with db := db3, rooms := st.rooms.set roomId rs1 },
       [Event.documentSaved ("doc:" ++ rs.documentId) rs.documentId now])

/-- `scheduleSave(roomState)`: cancel any pending debounced save and arm
a fresh one `SAVE_DEBOUNCE_MS` from now. -/
def scheduleSave (rs : RoomState) (now : Nat) : RoomState :=
  { rs with saveTimeout := some (now + SAVE_DEBOUNCE_MS) }

/-- Expiry of the debounced-save timer armed by `scheduleSave`: when the
deadline has been reached, the `setTimeout` callback runs
`saveDocument`. -/
def fireTimerIfDue (st : ServerState) (roomId : String) (now : Nat) :
    ServerState × List Event :=
  match st.rooms.get roomId with
  | none => (st, [])
  | some rs =>
    match rs.saveTimeout with
    | none => (st, [])
    | some deadline =>
      if deadline ≤ now then
        let rs1 := { rs with saveTimeout := none }
        let st1 := { st with rooms := st.rooms.set roomId rs1 }
        saveDocument st1 roomId now
      else (st, [])

/-! ## Leave path -/

/-- `handleLeaveRoom(socket)`. -/
def handleLeaveRoom (st : ServerState) (socket : Socket) (now : Nat) :
    ServerState × List Event :=
  match st.socketToRoom.get socket.id with
  | none => (st, [])
  | some roomId =>
    match st.rooms.get roomId with
    | none => (st, [])
    | some rs =>
      let userId := socket.userId
      let userSocketsInRoom :=
        ((st.userSockets.get userId).getD []).filter
          (fun sid => decide (st.socketToRoom.get sid = some roomId ∧ sid ≠ socket.id))
      let removed := userSocketsInRoom.length = 0
      let rs1 := if removed then { rs with users := rs.users.erase userId } else rs
      let evs1 := if removed then [Event.userLeft roomId socket.id userId] else []
      let st1 := { st with
        socketToRoom := st.socketToRoom.erase socket.id,
        rooms := st.rooms.set roomId rs1 }
      if rs1.users.isEmpty then
        let r := saveDocument st1 roomId now
        let st3 := { r.1 with
          documents := r.1.documents.erase rs.documentId,
          rooms := r.1.rooms.erase roomId }
        (st3, evs1 ++ r.2)
      else
        (st1, evs1)

/-! ## Join path -/

/-- `handleJoinRoom(socket, payload)`. -/
def handleJoinRoom (st : ServerState) (socket : Socket) (documentId : String)
    (now : Nat) : ServerState × List Event :=
  let userId := socket.userId
  let user := socket.user
  match checkDocumentAccess st.db userId documentId with
  | none => (st, [Event.errorTo socket.id "Access denied to this document"])
  | some role =>
    -- Leave any existing room
    let lv := handleLeaveRoom st socket now
    let evs1 := lv.2
    let roomId := "doc:" ++ documentId
    -- socket.join(roomId); socketToRoom.set
    let st2 := { lv.1 with socketToRoom := lv.1.socketToRoom.set socket.id roomId }
    -- Get or create room state
    let found : Option (RoomState × ServerState) :=
      match st2.rooms.get roomId with
      | some rs => some (rs, st2)
      | none =>
        match st2.db.documents.get documentId with
        | none => none
        | some doc =>
          let initialState := doc.content
          let st3 := (storeGetOrCreate st2 documentId initialState).2
          let rs : RoomState :=
            { documentId := documentId, users := AssocMap.empty,
              lastSaveTime := now, saveTimeout := none }
          some (rs, { st3 with rooms := st3.rooms.set roomId rs })
    match found with
    | none => (st2, evs1 ++ [Event.errorTo socket.id "Document not found"])
    | some (rs, st3) =>
      -- Add user to room
      let roomUser : RoomUser :=
        { id := userId, name := user.name, color := user.color,
          avatar := user.avatar, role := role, cursor := none, isOnline := true }
      let rs1 := { rs with users := rs.users.set userId roomUser }
      let st4 := { st3 with rooms := st3.rooms.set roomId rs1 }
      -- Get document info (the `documentInfo!` assertion throws when the
      -- row is gone; the surrounding catch then reports a join failure)
      match st4.db.documents.get documentId with
      | none => (st4, evs1 ++ [Event.errorTo socket.id "Failed to join room"])
      | some documentInfo =>
        let payload : RoomJoinedPayload :=
          { documentId := documentId, docId := documentInfo.id,
            docTitle := documentInfo.title, docVersion := documentInfo.version,
            state := encodeState ((st4.documents.get rs1.documentId).getD []),
            users := rs1.users.values, role := role }
        (st4, evs1 ++ [Event.roomJoined socket.id payload,
                       Event.userJoined roomId socket.id roomUser])

/-! ## CRDT operations -/

/-- `handleUpdateOperation(socket, payload)`. -/
def handleUpdateOperation (st : ServerState) (socket : Socket)
    (payload : UpdateOperationPayload) (now : Nat) : ServerState × List Event :=
  match st.socketToRoom.get socket.id with
  | none => (st, [])
  | some roomId =>
    match st.rooms.get roomId with
    | none => (st, [])
    | some rs =>
      let userId := socket.userId
      let userRole := (rs.users.get userId).map (·.role)
      -- Check write permission
      if userRole = some Role.VIEWER then
        (st, [Event.errorTo socket.id "You do not have permission to edit this document"])
      else
        match applyUpdate ((st.documents.get rs.documentId).getD []) payload.update with
        | none => (st, [Event.errorTo socket.id "Failed to apply update"])
        | some c1 =>
          let st1 := { st with documents := st.documents.set rs.documentId c1 }
          let rs1 := scheduleSave rs now
          let st2 := { st1 with rooms := st1.rooms.set roomId rs1 }
          (st2, [Event.updateOp roomId socket.id payload.documentId
                   payload.update payload.clientId payload.timestamp userId])

/-- `handleRequestSync(socket)`. -/
def handleRequestSync (st : ServerState) (socket : Socket) :
    ServerState × List Event :=
  match st.socketToRoom.get socket.id with
  | none => (st, [])
  | some roomId =>
    match st.rooms.get roomId with
    | none => (st, [])
    | some rs =>
      (st, [Event.syncState socket.id rs.documentId
              (encodeState ((st.documents.get rs.documentId).getD []))
              (getDocumentVersion st.db rs.documentId)])

/-! ## Presence -/

/-- `handleCursorPresence(socket, payload)`. -/
def handleCursorPresence (st : ServerState) (socket : Socket)
    (payload : CursorPresencePayload) : ServerState × List Event :=
  match st.socketToRoom.get socket.id with
  | none => (st, [])
  | some roomId =>
    match st.rooms.get roomId with
    | none => (st, [])
    | some rs =>
      let userId := socket.userId
      let rs1 :=
        match rs.users.get userId with
        | some ru => { rs with users := rs.users.set userId { ru with cursor := payload.cursor } }
        | none => rs
      let st1 := { st with rooms := st.rooms.set roomId rs1 }
      (st1, [Event.cursorPresence roomId socket.id payload userId])

/-- `handleTypingIndicator(socket, payload)` (no room-state lookup in the
source: a mapped socket's typing event is broadcast directly). -/
def handleTypingIndicator (st : ServerState) (socket : Socket)
    (payload : TypingIndicatorPayload) : ServerState × List Event :=
  match st.socketToRoom.get socket.id with
  | none => (st, [])
  | some roomId =>
    (st, [Event.typingIndicator roomId socket.id payload socket.userId])

/-! ## User socket tracking, connection and disconnection -/

/-- `trackUserSocket(userId, socketId)`. -/
def trackUserSocket (st : ServerState) (userId socketId : String) : ServerState :=
  let sockets := (st.userSockets.get userId).getD []
  let sockets1 := if socketId ∈ sockets then sockets else sockets ++ [socketId]
  { st with userSockets := st.userSockets.set userId sockets1 }

/-- `untrackUserSocket(userId, socketId)`. -/
def untrackUserSocket (st : ServerState) (userId socketId : String) : ServerState :=
  match st.userSockets.get userId with
  | none => st
  | some sockets =>
    let s1 := sockets.filter (fun s => decide (s ≠ socketId))
    if s1.length = 0 then { st with userSockets := st.userSockets.erase userId }
    else { st with userSockets := st.userSockets.set userId s1 }

/-- The `connection` handler's tracking step. -/
def handleConnection (st : ServerState) (socket : Socket) : ServerState :=
  trackUserSocket st socket.userId socket.id

/-- `handleDisconnect(socket)`. -/
def handleDisconnect (st : ServerState) (socket : Socket) (now : Nat) :
    ServerState × List Event :=
  let st1 := untrackUserSocket st socket.userId socket.id
  handleLeaveRoom st1 socket now

/-! ## Timed bursts of updates (for the debounce property) -/

/-- Whether an event is a durable-save notification. -/
def isSaveEvent : Event → Bool
  | Event.documentSaved _ _ _ => true
  | _ => false

def countSaves (evs : List Event) : Nat := evs.countP isSaveEvent

/-- Process a sequence of timestamped updates from one socket against one
room: before each update, the room's debounce timer fires if its deadline
has passed; then the update is handled at that instant. -/
def runBurst (sock : Socket) (docIdP : String) (clientId : Nat) (roomId : String) :
    ServerState → List (Nat × Bytes) → ServerState × List Event
  | st, [] => (st, [])
  | st, (t, u) :: rest =>
    let p1 := fireTimerIfDue st roomId t
    let p2 := handleUpdateOperation p1.1 sock ⟨docIdP, u, clientId, t⟩ t
    let p3 := runBurst sock docIdP clientId roomId p2.1 rest
    (p3.1, p1.2 ++ p2.2 ++ p3.2)

/-- A burst followed by an idle period until time `tEnd`, at which point
any still-pending debounce timer has expired and fires. -/
def runBurstThenIdle (sock : Socket) (docIdP : String) (clientId : Nat)
    (roomId : String) (st : ServerState) (updates : List (Nat × Bytes))
    (tEnd : Nat) : ServerState × List Event :=
  let p1 := runBurst sock docIdP clientId roomId st updates
  let p2 := fireTimerIfDue p1.1 roomId tEnd
  (p2.1, p1.2 ++ p2.2)

/-! ## Concrete sample data for witnesses -/

def aliceUser : SafeUser :=
  { id := "u1", email := "a@x", name := "Alice", avatar := none, color := "#f00" }

def aliceSocket : Socket := { id := "s1", userId := "u1", user := aliceUser }

def aliceViewer : RoomUser :=
  { id := "u1", name := "Alice", color := "#f00", avatar := none,
    role := Role.VIEWER, cursor := none, isOnline := true }

def aliceEditor : RoomUser :=
  { id := "u1", name := "Alice", color := "#f00", avatar := none,
    role := Role.EDITOR, cursor := none, isOnline := true }

def doc1Row : DbDocument :=
  { id := "d1", title := "Doc One", content := none, version := 3,
    ownerId := "u9", isPublic := false }

def doc1Db : Database :=
  { documents := AssocMap.empty.set "d1" doc1Row,
    collaborators := AssocMap.empty, operations := [], snapshots := [] }

/-- A server with Alice (a viewer) alone in the room of document `d1`. -/
def viewerServer : ServerState :=
  { rooms := AssocMap.empty.set "doc:d1"
      { documentId := "d1", users := AssocMap.empty.set "u1" aliceViewer,
        lastSaveTime := 0, saveTimeout := none },
    userSockets := AssocMap.empty.set "u1" ["s1"],
    socketToRoom := AssocMap.empty.set "s1" "doc:d1",
    documents := AssocMap.empty.set "d1" ([7] : DocContent),
    db := doc1Db }

/-- The same server with Alice as an editor. -/
def editorServer : ServerState :=
  { rooms := AssocMap.empty.set "doc:d1"
      { documentId := "d1", users := AssocMap.empty.set "u1" aliceEditor,
        lastSaveTime := 0, saveTimeout := none },
    userSockets := AssocMap.empty.set "u1" ["s1"],
    socketToRoom := AssocMap.empty.set "s1" "doc:d1",
    documents := AssocMap.empty.set "d1" ([7] : DocContent),
    db := doc1Db }

def eveUser : SafeUser :=
  { id := "u5", email := "e@x", name := "Eve", avatar := none, color := "#00f" }

/-- A socket that is not mapped to any room in the sample servers. -/
def strangerSocket : Socket := { id := "s9", userId := "u5", user := eveUser }

def samplePayload : UpdateOperationPayload :=
  { documentId := "d1", update := ⟨[42], true⟩, clientId := 11, timestamp := 70 }

def malformedPayload : UpdateOperationPayload :=
  { documentId := "d1", update := ⟨[42], false⟩, clientId := 11, timestamp := 70 }

def sampleCursorPayload : CursorPresencePayload :=
  { documentId := "d1", userId := "u5", cursor := some ⟨1, 2⟩,
    userName := "Eve", userColor := "#00f" }

def sampleTypingPayload : TypingIndicatorPayload :=
  { documentId := "d1", userId := "u5", isTyping := true }

/-! ## C10 — operations from a roomless connection are silent no-ops -/

/-- C10: for every connection that is not currently mapped to any room,
`submitUpdate`, `requestSync`, cursor presence, typing indicator and
leave are silent no-ops: no event is emitted (in particular no error) and
the server state is unchanged. -/
theorem roomless_operations_are_silent_noops (st : ServerState) (socket : Socket)
    (p : UpdateOperationPayload) (cp : CursorPresencePayload)
    (tp : TypingIndicatorPayload) (now : Nat)
    (h : st.socketToRoom.get socket.id = none) :
    handleUpdateOperation st socket p now = (st, []) ∧
    handleRequestSync st socket = (st, []) ∧
    handleCursorPresence st socket cp = (st, []) ∧
    handleTypingIndicator st socket tp = (st, []) ∧
    handleLeaveRoom st socket now = (st, []) := by
  unfold handleUpdateOperation handleRequestSync handleCursorPresence
    handleTypingIndicator handleLeaveRoom
  simp [h]

theorem roomless_operations_are_silent_noops_witness :
    handleUpdateOperation viewerServer strangerSocket samplePayload 70 = (viewerServer, []) ∧
    handleRequestSync viewerServer strangerSocket = (viewerServer, []) ∧
    handleCursorPresence viewerServer strangerSocket sampleCursorPayload = (viewerServer, []) ∧
    handleTypingIndicator viewerServer strangerSocket sampleTypingPayload = (viewerServer, []) ∧
    handleLeaveRoom viewerServer strangerSocket 70 = (viewerServer, []) :=
  roomless_operations_are_silent_noops viewerServer strangerSocket samplePayload
    sampleCursorPayload sampleTypingPayload 70 (by decide)

/-! ## C1 — a viewer's submitUpdate is rejected without any effect -/

/-- C1: when the submitting connection's roster entry has role `VIEWER`,
`handleUpdateOperation` emits a permission error to the submitter only,
the authoritative CRDT state is untouched, nothing is broadcast and no
save is scheduled (the state is returned exactly as it was). -/
theorem viewer_update_rejected (st : ServerState) (socket : Socket)
    (p : UpdateOperationPayload) (now : Nat) (roomId : String)
    (rs : RoomState) (u : RoomUser)
    (hmap : st.socketToRoom.get socket.id = some roomId)
    (hroom : st.rooms.get roomId = some rs)
    (hmem : rs.users.get socket.userId = some u)
    (hrole : u.role = Role.VIEWER) :
    handleUpdateOperation st socket p now =
      (st, [Event.errorTo socket.id
        "You do not have permission to edit this document"]) := by
  unfold handleUpdateOperation
  simp [hmap, hroom, hmem, hrole]

theorem viewer_update_rejected_witness :
    handleUpdateOperation viewerServer aliceSocket samplePayload 70 =
      (viewerServer, [Event.errorTo "s1"
        "You do not have permission to edit this document"]) :=
  viewer_update_rejected viewerServer aliceSocket samplePayload 70 "doc:d1"
    { documentId := "d1", users := AssocMap.empty.set "u1" aliceViewer,
      lastSaveTime := 0, saveTimeout := none }
    aliceViewer (by decide) (by decide) (by decide) (by decide)

/-! ## C8 — a malformed update is rejected, reported to submitter only -/

/-- C8: when the CRDT engine rejects the submitted update (it throws on
malformed input, without partially applying it), an error is reported to
the submitting connection only: no update is broadcast, no save is
scheduled and the authoritative state is exactly as before. -/
theorem malformed_update_rejected (st : ServerState) (socket : Socket)
    (p : UpdateOperationPayload) (now : Nat) (roomId : String) (rs : RoomState)
    (hmap : st.socketToRoom.get socket.id = some roomId)
    (hroom : st.rooms.get roomId = some rs)
    (hnv : (rs.users.get socket.userId).map (·.role) ≠ some Role.VIEWER)
    (hmal : p.update.wf = false) :
    handleUpdateOperation st socket p now =
      (st, [Event.errorTo socket.id "Failed to apply update"]) := by
  unfold handleUpdateOperation
  simp [hmap, hroom, hnv, applyUpdate, hmal]

theorem malformed_update_rejected_witness :
    handleUpdateOperation editorServer aliceSocket malformedPayload 70 =
      (editorServer, [Event.errorTo "s1" "Failed to apply update"]) :=
  malformed_update_rejected editorServer aliceSocket malformedPayload 70 "doc:d1"
    { documentId := "d1", users := AssocMap.empty.set "u1" aliceEditor,
      lastSaveTime := 0, saveTimeout := none }
    (by decide) (by decide) (by decide) (by decide)

/-! ## Shape lemmas -/

/-- An accepted update: applied to the authoritative state, broadcast to
the others, debounce timer re-armed. -/
theorem handleUpdateOperation_accepted (st : ServerState) (socket : Socket)
    (p : UpdateOperationPayload) (now : Nat) (roomId : String) (rs : RoomState)
    (hmap : st.socketToRoom.get socket.id = some roomId)
    (hroom : st.rooms.get roomId = some rs)
    (hnv : (rs.users.get socket.userId).map (·.role) ≠ some Role.VIEWER)
    (hwf : p.update.wf = true) :
    handleUpdateOperation st socket p now =
      ({ st with
          documents := st.documents.set rs.documentId
            (((st.documents.get rs.documentId).getD []) ++ p.update.ops),
          rooms := st.rooms.set roomId (scheduleSave rs now) },
       [Event.updateOp roomId socket.id p.documentId p.update p.clientId
          p.timestamp socket.userId]) := by
  unfold handleUpdateOperation
  simp [hmap, hroom, hnv, applyUpdate, hwf]

/-- A successful durable save: content and version written, an
operation-log record appended, a snapshot appended when more than the
snapshot interval elapsed since `lastSaveTime`, the room notified. -/
theorem saveDocument_spec (st : ServerState) (roomId : String) (now : Nat)
    (rs : RoomState) (d : DbDocument)
    (hroom : st.rooms.get roomId = some rs)
    (hdb : st.db.documents.get rs.documentId = some d) :
    saveDocument st roomId now =
      ({ st with
          db :=
            { st.db with
                documents := st.db.documents.set rs.documentId
                  { d with
                      content := some (encodeState ((st.documents.get rs.documentId).getD [])),
                      version := d.version + 1 },
                operations := st.db.operations ++
                  [{ documentId := rs.documentId, userId := "system",
                     data := encodeState ((st.documents.get rs.documentId).getD []),
                     version := d.version + 1 }],
                snapshots :=
                  if now - rs.lastSaveTime > SNAPSHOT_INTERVAL_MS then
                    st.db.snapshots ++
                      [{ documentId := rs.documentId,
                         data := encodeState ((st.documents.get rs.documentId).getD []),
                         version := d.version + 1 }]
                  else st.db.snapshots },
          rooms := st.rooms.set roomId { rs with lastSaveTime := now } },
       [Event.documentSaved ("doc:" ++ rs.documentId) rs.documentId now]) := by
  unfold saveDocument getDocumentVersion
  simp only [hroom, hdb, AssocMap.get_set_self]
  by_cases hsnap : now - rs.lastSaveTime > SNAPSHOT_INTERVAL_MS
  · simp [hsnap]
  · simp [hsnap]

/-! ## C6 — requestSync serves the current in-memory state -/

/-- C6: `handleRequestSync` of a connection mapped to a resident room
serves the room's current in-memory authoritative state without touching
any state; in particular, issued right after an accepted update (before
any debounce save has run), the served state already carries that
update's operations on top of the previous in-memory state. -/
theorem requestSync_serves_inmemory_state (st : ServerState) (socket : Socket)
    (p : UpdateOperationPayload) (now : Nat) (roomId : String) (rs : RoomState)
    (hmap : st.socketToRoom.get socket.id = some roomId)
    (hroom : st.rooms.get roomId = some rs)
    (hnv : (rs.users.get socket.userId).map (·.role) ≠ some Role.VIEWER)
    (hwf : p.update.wf = true) :
    handleRequestSync st socket =
      (st, [Event.syncState socket.id rs.documentId
              (encodeState ((st.documents.get rs.documentId).getD []))
              (getDocumentVersion st.db rs.documentId)]) ∧
    handleRequestSync (handleUpdateOperation st socket p now).1 socket =
      ((handleUpdateOperation st socket p now).1,
       [Event.syncState socket.id rs.documentId
          (encodeState (((st.documents.get rs.documentId).getD []) ++ p.update.ops))
          (getDocumentVersion st.db rs.documentId)]) := by
  constructor
  · unfold handleRequestSync
    simp [hmap, hroom]
  · rw [handleUpdateOperation_accepted st socket p now roomId rs hmap hroom hnv hwf]
    unfold handleRequestSync
    simp [hmap, hroom, AssocMap.get_set_self, scheduleSave]

theorem requestSync_serves_inmemory_state_witness :
    handleRequestSync editorServer aliceSocket =
      (editorServer, [Event.syncState "s1" "d1" (encodeState [7]) 3]) ∧
    handleRequestSync (handleUpdateOperation editorServer aliceSocket samplePayload 70).1 aliceSocket =
      ((handleUpdateOperation editorServer aliceSocket samplePayload 70).1,
       [Event.syncState "s1" "d1" (encodeState ([7] ++ [42])) 3]) :=
  requestSync_serves_inmemory_state editorServer aliceSocket samplePayload 70
    "doc:d1"
    { documentId := "d1", users := AssocMap.empty.set "u1" aliceEditor,
      lastSaveTime := 0, saveTimeout := none }
    (by decide) (by decide) (by decide) (by decide)

/-! ## C4 — when are snapshots taken?

The claim says a snapshot is written iff more than the snapshot interval
has elapsed since the *last snapshot*.  The code compares `now` against
`roomState.lastSaveTime`, which is refreshed on *every* save (line
`roomState.lastSaveTime = now` runs unconditionally), so the interval is
measured from the last save, not from the last snapshot. -/

/-- A room whose `lastSaveTime` is the creation instant 0 and whose
database has never held a snapshot. -/
def snapServer : ServerState :=
  { rooms := AssocMap.empty.set "doc:d1"
      { documentId := "d1", users := AssocMap.empty.set "u1" aliceEditor,
        lastSaveTime := 0, saveTimeout := none },
    userSockets := AssocMap.empty.set "u1" ["s1"],
    socketToRoom := AssocMap.empty.set "s1" "doc:d1",
    documents := AssocMap.empty.set "d1" ([7] : DocContent),
    db := doc1Db }

/-- C4 counterexample: two saves, at 59 s and 118 s after the room's
creation.  By the second save more than 60 s (118 s, in fact) has passed
since the last written snapshot (none was ever written), so the claim
requires a snapshot record; the code writes none, because only 59 s
passed since the previous regular save. -/
theorem snapshot_since_last_snapshot_counterexample :
    (saveDocument (saveDocument snapServer "doc:d1" 59000).1 "doc:d1" 118000).1.db.operations.length = 2 ∧
    (saveDocument (saveDocument snapServer "doc:d1" 59000).1 "doc:d1" 118000).1.db.snapshots = [] := by
  decide

/-- C4 amended: on every durable save, a snapshot record is written iff
more than `SNAPSHOT_INTERVAL_MS` has elapsed since the room's
`lastSaveTime` — the time of the last durable save of this room (or of
the room's creation), not of the last snapshot. -/
theorem snapshot_iff_interval_since_last_save (st : ServerState)
    (roomId : String) (now : Nat) (rs : RoomState) (d : DbDocument)
    (hroom : st.rooms.get roomId = some rs)
    (hdb : st.db.documents.get rs.documentId = some d) :
    (saveDocument st roomId now).1.db.snapshots.length =
      st.db.snapshots.length +
        (if now - rs.lastSaveTime > SNAPSHOT_INTERVAL_MS then 1 else 0) ∧
    (saveDocument st roomId now).1.rooms.get roomId =
      some { rs with lastSaveTime := now } := by
  rw [saveDocument_spec st roomId now rs d hroom hdb]
  by_cases hsnap : now - rs.lastSaveTime > SNAPSHOT_INTERVAL_MS
  · simp [hsnap]
  · simp [hsnap]

theorem snapshot_iff_interval_since_last_save_witness :
    (saveDocument snapServer "doc:d1" 61000).1.db.snapshots.length =
      (0 + (if 61000 - 0 > SNAPSHOT_INTERVAL_MS then 1 else 0)) ∧
    (saveDocument snapServer "doc:d1" 61000).1.rooms.get "doc:d1" =
      some { documentId := "d1", users := AssocMap.empty.set "u1" aliceEditor,
             lastSaveTime := 61000, saveTimeout := none } :=
  snapshot_iff_interval_since_last_save snapServer "doc:d1" 61000
    { documentId := "d1", users := AssocMap.empty.set "u1" aliceEditor,
      lastSaveTime := 0, saveTimeout := none }
    doc1Row (by decide) (by decide)

/-- A map holding a binding is not empty. -/
theorem AssocMap.isEmpty_eq_false_of_get_some {α β : Type} [DecidableEq α]
    {m : AssocMap α β} {k : α} {v : β} (h : m.get k = some v) :
    m.isEmpty = false := by
  cases m with
  | nil => simp [AssocMap.get] at h
  | cons p m => rfl

/-! ## C2 — the leave path: multi-connection identities, last-leave flush -/

/-- C2: when a connection leaves its room, (a) if its identity still has
another live connection in the room, the roster entry is kept and nothing
is broadcast; (b) if it was the identity's last connection there, the
member is removed and a member-left notification broadcast; and (c) if
the roster thereby becomes empty, exactly one synchronous flush of the
in-memory authoritative state reaches the durable store before the room
is deleted from the registry and the document store. -/
theorem leave_room_lifecycle (st : ServerState) (socket : Socket) (now : Nat)
    (roomId : String) (rs : RoomState) (u : RoomUser) (d : DbDocument)
    (hmap : st.socketToRoom.get socket.id = some roomId)
    (hroom : st.rooms.get roomId = some rs)
    (hmem : rs.users.get socket.userId = some u)
    (hdb : st.db.documents.get rs.documentId = some d) :
    (((st.userSockets.get socket.userId).getD []).filter
        (fun sid => decide (st.socketToRoom.get sid = some roomId ∧ sid ≠ socket.id)) ≠ [] →
      (handleLeaveRoom st socket now).1.rooms.get roomId = some rs ∧
      (handleLeaveRoom st socket now).2 = [] ∧
      (handleLeaveRoom st socket now).1.documents = st.documents ∧
      (handleLeaveRoom st socket now).1.db = st.db) ∧
    (((st.userSockets.get socket.userId).getD []).filter
        (fun sid => decide (st.socketToRoom.get sid = some roomId ∧ sid ≠ socket.id)) = [] →
      (Event.userLeft roomId socket.id socket.userId ∈ (handleLeaveRoom st socket now).2 ∧
       (∀ rs', (handleLeaveRoom st socket now).1.rooms.get roomId = some rs' →
          rs'.users.get socket.userId = none) ∧
       ((rs.users.erase socket.userId).isEmpty = true →
         countSaves (handleLeaveRoom st socket now).2 = 1 ∧
         (handleLeaveRoom st socket now).1.rooms.get roomId = none ∧
         (handleLeaveRoom st socket now).1.documents.get rs.documentId = none ∧
         (handleLeaveRoom st socket now).1.db.operations.length =
           st.db.operations.length + 1 ∧
         (handleLeaveRoom st socket now).1.db.documents.get rs.documentId =
           some { d with
             content := some (encodeState ((st.documents.get rs.documentId).getD [])),
             version := d.version + 1 }))) := by
  have husers : rs.users.isEmpty = false := AssocMap.isEmpty_eq_false_of_get_some hmem
  unfold handleLeaveRoom saveDocument getDocumentVersion
  simp only [hmap, hroom]
  generalize hL : List.filter
      (fun sid => decide (st.socketToRoom.get sid = some roomId ∧ sid ≠ socket.id))
      ((st.userSockets.get socket.userId).getD []) = L
  cases L with
  | cons sid rest =>
    -- another connection of the same identity is still in the room
    refine ⟨fun _ => ?_, fun heq => absurd heq (by simp)⟩
    simp [husers]
  | nil =>
    -- this was the identity's last connection in the room
    refine ⟨fun hne => absurd rfl hne, fun _ => ?_⟩
    by_cases hempty : (rs.users.erase socket.userId).isEmpty = true
    · -- roster becomes empty: flush, then teardown
      by_cases hsnap : now - rs.lastSaveTime > SNAPSHOT_INTERVAL_MS
      · simp [hempty, hdb, hsnap, countSaves, isSaveEvent]
      · simp [hempty, hdb, hsnap, countSaves, isSaveEvent]
    · -- the roster still holds other members: no flush, room kept
      refine ⟨?_, ?_, fun hc => absurd hc hempty⟩
      · simp [hempty]
      · intro rs' hrs'
        simp [hempty] at hrs'
        subst hrs'
        simp

theorem leave_room_lifecycle_witness :
    countSaves (handleLeaveRoom viewerServer aliceSocket 99).2 = 1 ∧
    (handleLeaveRoom viewerServer aliceSocket 99).1.rooms.get "doc:d1" = none ∧
    (handleLeaveRoom viewerServer aliceSocket 99).1.documents.get "d1" = none := by
  have h := leave_room_lifecycle viewerServer aliceSocket 99 "doc:d1"
    { documentId := "d1", users := AssocMap.empty.set "u1" aliceViewer,
      lastSaveTime := 0, saveTimeout := none }
    aliceViewer doc1Row (by decide) (by decide) (by decide) (by decide)
  have h3 := (h.2 (by decide)).2.2 (by decide)
  exact ⟨h3.1, h3.2.1, h3.2.2.1⟩

/-! ## Projection and event-shape lemmas for the compound paths -/

theorem saveDocument_userSockets (st : ServerState) (roomId : String) (now : Nat) :
    (saveDocument st roomId now).1.userSockets = st.userSockets := by
  simp only [saveDocument]
  split
  · rfl
  · split
    · rfl
    · rfl

theorem saveDocument_documents (st : ServerState) (roomId : String) (now : Nat) :
    (saveDocument st roomId now).1.documents = st.documents := by
  simp only [saveDocument]
  split
  · rfl
  · split
    · rfl
    · rfl

theorem saveDocument_socketToRoom (st : ServerState) (roomId : String) (now : Nat) :
    (saveDocument st roomId now).1.socketToRoom = st.socketToRoom := by
  simp only [saveDocument]
  split
  · rfl
  · split
    · rfl
    · rfl

theorem saveDocument_events_shape (st : ServerState) (roomId : String) (now : Nat) :
    ∀ e ∈ (saveDocument st roomId now).2, ∃ r dd t, e = Event.documentSaved r dd t := by
  simp only [saveDocument]
  split
  · simp
  · split
    · simp
    · intro e he
      simp only [List.mem_singleton] at he
      exact ⟨_, _, _, he⟩

theorem AssocMap.isSome_get_set {α β : Type} [DecidableEq α]
    (m : AssocMap α β) (k1 k2 : α) (v : β) (h : (m.get k2).isSome = true) :
    ((m.set k1 v).get k2).isSome = true := by
  by_cases hk : k1 = k2
  · subst hk
    simp
  · rw [AssocMap.get_set_ne m k1 k2 v hk]
    exact h

theorem saveDocument_db_doc_isSome (st : ServerState) (roomId : String) (now : Nat)
    (k : String) (h : (st.db.documents.get k).isSome = true) :
    ((saveDocument st roomId now).1.db.documents.get k).isSome = true := by
  simp only [saveDocument]
  split
  · exact h
  · split
    · exact h
    · split <;> exact AssocMap.isSome_get_set _ _ _ _ h

theorem handleLeaveRoom_userSockets (st : ServerState) (socket : Socket) (now : Nat) :
    (handleLeaveRoom st socket now).1.userSockets = st.userSockets := by
  simp only [handleLeaveRoom]
  split
  · rfl
  · split
    · rfl
    · split <;> split <;> simp [saveDocument_userSockets]

theorem handleLeaveRoom_db_doc_isSome (st : ServerState) (socket : Socket) (now : Nat)
    (k : String) (h : (st.db.documents.get k).isSome = true) :
    ((handleLeaveRoom st socket now).1.db.documents.get k).isSome = true := by
  simp only [handleLeaveRoom]
  split
  · exact h
  · split
    · exact h
    · split <;> split <;>
        first
        | exact saveDocument_db_doc_isSome _ _ now k h
        | exact h

theorem handleLeaveRoom_events_shape (st : ServerState) (socket : Socket) (now : Nat) :
    ∀ e ∈ (handleLeaveRoom st socket now).2,
      (∃ r sid uid, e = Event.userLeft r sid uid) ∨
      (∃ r dd t, e = Event.documentSaved r dd t) := by
  simp only [handleLeaveRoom]
  split
  · simp
  · split
    · simp
    · split <;> split <;> intro e he
      · rcases List.mem_append.1 he with he | he
        · simp only [List.mem_singleton] at he
          exact Or.inl ⟨_, _, _, he⟩
        · obtain ⟨r, dd, t, hrt⟩ := saveDocument_events_shape _ _ now e he
          exact Or.inr ⟨r, dd, t, hrt⟩
      · simp only [List.mem_singleton] at he
        exact Or.inl ⟨_, _, _, he⟩
      · rcases List.mem_append.1 he with he | he
        · simp at he
        · obtain ⟨r, dd, t, hrt⟩ := saveDocument_events_shape _ _ now e he
          exact Or.inr ⟨r, dd, t, hrt⟩
      · simp at he

theorem handleLeaveRoom_no_errorTo (st : ServerState) (socket : Socket) (now : Nat)
    (sid msg : String) : Event.errorTo sid msg ∉ (handleLeaveRoom st socket now).2 := by
  intro hmem
  rcases handleLeaveRoom_events_shape st socket now _ hmem with ⟨r, s, u, h⟩ | ⟨r, dd, t, h⟩ <;>
    simp at h

theorem handleLeaveRoom_no_roomJoined (st : ServerState) (socket : Socket) (now : Nat)
    (sid : String) (pay : RoomJoinedPayload) :
    Event.roomJoined sid pay ∉ (handleLeaveRoom st socket now).2 := by
  intro hmem
  rcases handleLeaveRoom_events_shape st socket now _ hmem with ⟨r, s, u, h⟩ | ⟨r, dd, t, h⟩ <;>
    simp at h

theorem checkDocumentAccess_some_doc {db : Database} {uid did : String} {r : Role}
    (h : checkDocumentAccess db uid did = some r) :
    (db.documents.get did).isSome = true := by
  unfold checkDocumentAccess at h
  cases hd : db.documents.get did with
  | none =>
    rw [hd] at h
    exact absurd h (by simp)
  | some d => rfl

theorem storeGetOrCreate_db (st : ServerState) (documentId : String)
    (init : Option Bytes) : (storeGetOrCreate st documentId init).2.db = st.db := by
  unfold storeGetOrCreate
  split <;> rfl

theorem storeGetOrCreate_userSockets (st : ServerState) (documentId : String)
    (init : Option Bytes) :
    (storeGetOrCreate st documentId init).2.userSockets = st.userSockets := by
  unfold storeGetOrCreate
  split <;> rfl

/-! ## C3 — a failing join mutates nothing -/

/-- C3: every `handleJoinRoom` call that reports an error to the caller
(in the atomic, serialized execution of the handler, the only reachable
failure is the access-denied path: the document-load failure branches
require the document row to vanish between the access check and the load)
leaves the room registry, the socket-to-room mapping, rosters and the
document store exactly as they were. -/
theorem failed_join_no_partial_state (st : ServerState) (socket : Socket)
    (documentId : String) (now : Nat)
    (h : ∃ msg, Event.errorTo socket.id msg ∈
      (handleJoinRoom st socket documentId now).2) :
    (handleJoinRoom st socket documentId now).1 = st := by
  obtain ⟨msg, hmem⟩ := h
  cases hacc : checkDocumentAccess st.db socket.userId documentId with
  | none => simp [handleJoinRoom, hacc]
  | some role =>
    exfalso
    have hdoc : (st.db.documents.get documentId).isSome = true :=
      checkDocumentAccess_some_doc hacc
    obtain ⟨d1, hd1⟩ := Option.isSome_iff_exists.mp
      (handleLeaveRoom_db_doc_isSome st socket now documentId hdoc)
    simp only [handleJoinRoom, hacc] at hmem
    cases hrm : (handleLeaveRoom st socket now).1.rooms.get ("doc:" ++ documentId) with
    | some rs =>
      simp only [hrm, hd1] at hmem
      rcases List.mem_append.1 hmem with hmem | hmem
      · exact handleLeaveRoom_no_errorTo st socket now _ _ hmem
      · simp at hmem
    | none =>
      simp only [hrm, storeGetOrCreate_db, hd1] at hmem
      rcases List.mem_append.1 hmem with hmem | hmem
      · exact handleLeaveRoom_no_errorTo st socket now _ _ hmem
      · simp at hmem

theorem failed_join_no_partial_state_witness :
    (handleJoinRoom viewerServer strangerSocket "d1" 70).1 = viewerServer :=
  failed_join_no_partial_state viewerServer strangerSocket "d1" 70
    ⟨"Access denied to this document", by decide⟩

/-- A join that emitted `ROOM_JOINED` ends with the caller's identity
upserted into the target room's roster (exactly one entry for that key). -/
theorem join_success_roster (st : ServerState) (socket : Socket)
    (documentId : String) (now : Nat) (pay : RoomJoinedPayload)
    (hj : Event.roomJoined socket.id pay ∈
      (handleJoinRoom st socket documentId now).2) :
    ∃ rs ru,
      (handleJoinRoom st socket documentId now).1.rooms.get ("doc:" ++ documentId) =
        some rs ∧
      rs.users.get socket.userId = some ru ∧
      rs.users.countKey socket.userId = 1 := by
  cases hacc : checkDocumentAccess st.db socket.userId documentId with
  | none =>
    exfalso
    simp [handleJoinRoom, hacc] at hj
  | some role =>
    simp only [handleJoinRoom, hacc] at hj ⊢
    cases hrm : (handleLeaveRoom st socket now).1.rooms.get ("doc:" ++ documentId) with
    | some rs =>
      cases hdoc2 : (handleLeaveRoom st socket now).1.db.documents.get documentId with
      | none =>
        exfalso
        simp only [hrm, hdoc2] at hj
        rcases List.mem_append.1 hj with hj | hj
        · exact handleLeaveRoom_no_roomJoined st socket now _ _ hj
        · simp at hj
      | some dInfo =>
        simp only [hrm, hdoc2]
        exact ⟨_, _, AssocMap.get_set_self _ _ _, AssocMap.get_set_self _ _ _,
          AssocMap.countKey_set _ _ _⟩
    | none =>
      cases hdoc2 : (handleLeaveRoom st socket now).1.db.documents.get documentId with
      | none =>
        exfalso
        simp only [hrm, hdoc2] at hj
        rcases List.mem_append.1 hj with hj | hj
        · exact handleLeaveRoom_no_roomJoined st socket now _ _ hj
        · simp at hj
      | some doc =>
        simp only [hrm, hdoc2, storeGetOrCreate_db]
        exact ⟨_, _, AssocMap.get_set_self _ _ _, AssocMap.get_set_self _ _ _,
          AssocMap.countKey_set _ _ _⟩

/-- Joins never touch the identity-to-connections tracker. -/
theorem handleJoinRoom_userSockets (st : ServerState) (socket : Socket)
    (documentId : String) (now : Nat) :
    (handleJoinRoom st socket documentId now).1.userSockets = st.userSockets := by
  cases hacc : checkDocumentAccess st.db socket.userId documentId with
  | none => simp [handleJoinRoom, hacc]
  | some role =>
    simp only [handleJoinRoom, hacc]
    cases hrm : (handleLeaveRoom st socket now).1.rooms.get ("doc:" ++ documentId) with
    | some rs =>
      cases hdoc2 : (handleLeaveRoom st socket now).1.db.documents.get documentId <;>
        simp [hrm, hdoc2, handleLeaveRoom_userSockets]
    | none =>
      cases hdoc2 : (handleLeaveRoom st socket now).1.db.documents.get documentId <;>
        simp [hrm, hdoc2, handleLeaveRoom_userSockets, storeGetOrCreate_db,
          storeGetOrCreate_userSockets]

/-! ## C7 — two connections of one identity: one roster entry -/

/-- C7: after two successful joins of the same room by two distinct
connections of the same identity, the roster holds exactly one
`RoomMember` entry for that identity (the map is keyed by user id, so the
second join upserts), while both connections stay tracked as live for the
identity. -/
theorem double_join_single_roster_entry (st : ServerState) (s1 s2 : Socket)
    (documentId : String) (n1 n2 : Nat) (pay1 pay2 : RoomJoinedPayload)
    (huid : s1.userId = s2.userId)
    (h1 : s1.id ∈ (st.userSockets.get s2.userId).getD [])
    (h2 : s2.id ∈ (st.userSockets.get s2.userId).getD [])
    (hj1 : Event.roomJoined s1.id pay1 ∈ (handleJoinRoom st s1 documentId n1).2)
    (hj2 : Event.roomJoined s2.id pay2 ∈
      (handleJoinRoom (handleJoinRoom st s1 documentId n1).1 s2 documentId n2).2) :
    (∃ rs ru,
      (handleJoinRoom (handleJoinRoom st s1 documentId n1).1 s2 documentId n2).1.rooms.get
          ("doc:" ++ documentId) = some rs ∧
      rs.users.get s2.userId = some ru ∧
      rs.users.countKey s2.userId = 1) ∧
    s1.id ∈ ((handleJoinRoom (handleJoinRoom st s1 documentId n1).1 s2
        documentId n2).1.userSockets.get s2.userId).getD [] ∧
    s2.id ∈ ((handleJoinRoom (handleJoinRoom st s1 documentId n1).1 s2
        documentId n2).1.userSockets.get s2.userId).getD [] := by
  refine ⟨join_success_roster _ s2 documentId n2 pay2 hj2, ?_, ?_⟩ <;>
    rw [handleJoinRoom_userSockets, handleJoinRoom_userSockets] <;> assumption

def doc1Owned : DbDocument :=
  { id := "d1", title := "Doc One", content := none, version := 3,
    ownerId := "u1", isPublic := false }

/-- A server with no resident rooms, document `d1` owned by `u1`, and two
connected tabs `s1`, `s2` of user `u1`. -/
def twoTabServer : ServerState :=
  { rooms := AssocMap.empty,
    userSockets := AssocMap.empty.set "u1" ["s1", "s2"],
    socketToRoom := AssocMap.empty,
    documents := AssocMap.empty,
    db := { documents := AssocMap.empty.set "d1" doc1Owned,
            collaborators := AssocMap.empty, operations := [], snapshots := [] } }

def aliceTab2 : Socket := { id := "s2", userId := "u1", user := aliceUser }

def aliceOwnerRU : RoomUser :=
  { id := "u1", name := "Alice", color := "#f00", avatar := none,
    role := Role.OWNER, cursor := none, isOnline := true }

def joinedPay : RoomJoinedPayload :=
  { documentId := "d1", docId := "d1", docTitle := "Doc One", docVersion := 3,
    state := ⟨[], true⟩, users := [aliceOwnerRU], role := Role.OWNER }

theorem double_join_single_roster_entry_witness :
    (∃ rs ru,
      (handleJoinRoom (handleJoinRoom twoTabServer aliceSocket "d1" 10).1 aliceTab2
          "d1" 20).1.rooms.get ("doc:" ++ "d1") = some rs ∧
      rs.users.get aliceTab2.userId = some ru ∧
      rs.users.countKey aliceTab2.userId = 1) ∧
    aliceSocket.id ∈ ((handleJoinRoom (handleJoinRoom twoTabServer aliceSocket "d1" 10).1
        aliceTab2 "d1" 20).1.userSockets.get aliceTab2.userId).getD [] ∧
    aliceTab2.id ∈ ((handleJoinRoom (handleJoinRoom twoTabServer aliceSocket "d1" 10).1
        aliceTab2 "d1" 20).1.userSockets.get aliceTab2.userId).getD [] :=
  double_join_single_roster_entry twoTabServer aliceSocket aliceTab2 "d1" 10 20
    joinedPay joinedPay rfl (by decide) (by decide) (by decide) (by decide)

theorem AssocMap.erase_set_singleton {α β : Type} [DecidableEq α] (k : α) (v : β) :
    (((AssocMap.empty : AssocMap α β).set k v).erase k).isEmpty = true := by
  simp [AssocMap.set, AssocMap.erase, AssocMap.empty, AssocMap.isEmpty]

theorem newCRDTDocument_encodeState (c : DocContent) :
    newCRDTDocument (some (encodeState c)) = c := by
  unfold newCRDTDocument encodeState
  by_cases h : c.length > 0
  · simp
  · have hc : c = [] := List.length_eq_zero.mp (Nat.eq_zero_of_not_pos h)
    simp [hc]

/-- Projections of a leave that empties the roster: the room is flushed
(content, version, operation log) and removed from registry and store. -/
theorem handleLeaveRoom_teardown_proj (st : ServerState) (socket : Socket)
    (now : Nat) (roomId : String) (rs : RoomState) (d : DbDocument)
    (hmap : st.socketToRoom.get socket.id = some roomId)
    (hroom : st.rooms.get roomId = some rs)
    (hothers : List.filter
      (fun sid => decide (st.socketToRoom.get sid = some roomId ∧ sid ≠ socket.id))
      ((st.userSockets.get socket.userId).getD []) = [])
    (hempty : (rs.users.erase socket.userId).isEmpty = true)
    (hdb : st.db.documents.get rs.documentId = some d) :
    (handleLeaveRoom st socket now).1.rooms.get roomId = none ∧
    (handleLeaveRoom st socket now).1.documents.get rs.documentId = none ∧
    (handleLeaveRoom st socket now).1.db.documents.get rs.documentId =
      some { d with
        content := some (encodeState ((st.documents.get rs.documentId).getD [])),
        version := d.version + 1 } ∧
    (handleLeaveRoom st socket now).1.db.operations.length =
      st.db.operations.length + 1 ∧
    (handleLeaveRoom st socket now).2 =
      [Event.userLeft roomId socket.id socket.userId,
       Event.documentSaved ("doc:" ++ rs.documentId) rs.documentId now] := by
  unfold handleLeaveRoom saveDocument getDocumentVersion
  simp only [hmap, hroom, hothers]
  by_cases hsnap : now - rs.lastSaveTime > SNAPSHOT_INTERVAL_MS <;>
    simp [hempty, hdb, hsnap]

/-! ## C9 — a sole member rejoining its own room tears it down and rebuilds it -/

/-- C9: `handleJoinRoom` runs the full leave path before joining, even
when the target is the room the connection is already in.  For the sole
member of a room this empties the roster: the room is flushed to the
durable store (one save: member-left and document-saved notifications,
operation log grown, version bumped, stored content = the in-memory
state) and removed, then rebuilt by re-loading the just-flushed bytes
from the durable store, with a fresh roster, save timer and
`lastSaveTime`. -/
theorem sole_member_rejoin_rebuilds_room (st : ServerState) (socket : Socket)
    (documentId : String) (now : Nat) (rs : RoomState) (u : RoomUser)
    (d : DbDocument) (role : Role)
    (hacc : checkDocumentAccess st.db socket.userId documentId = some role)
    (hmap : st.socketToRoom.get socket.id = some ("doc:" ++ documentId))
    (hroom : st.rooms.get ("doc:" ++ documentId) = some rs)
    (hdid : rs.documentId = documentId)
    (hroster : rs.users = (AssocMap.empty : AssocMap String RoomUser).set socket.userId u)
    (hothers : List.filter
      (fun sid => decide (st.socketToRoom.get sid = some ("doc:" ++ documentId) ∧ sid ≠ socket.id))
      ((st.userSockets.get socket.userId).getD []) = [])
    (hdb : st.db.documents.get documentId = some d) :
    countSaves (handleJoinRoom st socket documentId now).2 = 1 ∧
    Event.userLeft ("doc:" ++ documentId) socket.id socket.userId ∈
      (handleJoinRoom st socket documentId now).2 ∧
    (handleJoinRoom st socket documentId now).1.db.operations.length =
      st.db.operations.length + 1 ∧
    (handleJoinRoom st socket documentId now).1.db.documents.get documentId =
      some { d with
        content := some (encodeState ((st.documents.get documentId).getD [])),
        version := d.version + 1 } ∧
    (handleJoinRoom st socket documentId now).1.rooms.get ("doc:" ++ documentId) =
      some { documentId := documentId,
             users := (AssocMap.empty : AssocMap String RoomUser).set socket.userId
               { id := socket.userId, name := socket.user.name,
                 color := socket.user.color, avatar := socket.user.avatar,
                 role := role, cursor := none, isOnline := true },
             lastSaveTime := now, saveTimeout := none } ∧
    (handleJoinRoom st socket documentId now).1.documents.get documentId =
      some ((st.documents.get documentId).getD []) := by
  have hempty : (rs.users.erase socket.userId).isEmpty = true := by
    rw [hroster]
    exact AssocMap.erase_set_singleton _ _
  have hdb2 : st.db.documents.get rs.documentId = some d := by
    rw [hdid]
    exact hdb
  obtain ⟨hrooms0, hdocs0, hdbdocs, hops, hevs⟩ :=
    handleLeaveRoom_teardown_proj st socket now ("doc:" ++ documentId) rs d
      hmap hroom hothers hempty hdb2
  rw [hdid] at hdocs0 hdbdocs hevs
  simp only [handleJoinRoom, hacc, hrooms0, hdbdocs, storeGetOrCreate, hdocs0,
    newCRDTDocument_encodeState, hevs, hops]
  refine ⟨by simp [countSaves, isSaveEvent], by simp, by simp [hops], ?_, ?_, ?_⟩
  · simp [hdbdocs]
  · simp [AssocMap.set, AssocMap.get]
  · simp

/-- A server in which Alice owns `d1` and is its room's sole member via
her only connection. -/
def soleServer : ServerState :=
  { rooms := AssocMap.empty.set "doc:d1"
      { documentId := "d1", users := AssocMap.empty.set "u1" aliceOwnerRU,
        lastSaveTime := 0, saveTimeout := none },
    userSockets := AssocMap.empty.set "u1" ["s1"],
    socketToRoom := AssocMap.empty.set "s1" "doc:d1",
    documents := AssocMap.empty.set "d1" ([7] : DocContent),
    db := { documents := AssocMap.empty.set "d1" doc1Owned,
            collaborators := AssocMap.empty, operations := [], snapshots := [] } }

theorem sole_member_rejoin_rebuilds_room_witness :
    countSaves (handleJoinRoom soleServer aliceSocket "d1" 50).2 = 1 ∧
    (handleJoinRoom soleServer aliceSocket "d1" 50).1.db.operations.length =
      soleServer.db.operations.length + 1 ∧
    (handleJoinRoom soleServer aliceSocket "d1" 50).1.documents.get "d1" =
      some ((soleServer.documents.get "d1").getD []) := by
  have h := sole_member_rejoin_rebuilds_room soleServer aliceSocket "d1" 50
    { documentId := "d1", users := AssocMap.empty.set "u1" aliceOwnerRU,
      lastSaveTime := 0, saveTimeout := none }
    aliceOwnerRU doc1Owned Role.OWNER
    (by decide) (by decide) (by decide) rfl rfl (by decide) (by decide)
  exact ⟨h.1, h.2.2.1, h.2.2.2.2.2⟩

/-! ## C5 — debounce coalescing: a burst of N updates, one save -/

theorem fireTimerIfDue_quiet (st : ServerState) (roomId : String) (now : Nat)
    (rs : RoomState) (hroom : st.rooms.get roomId = some rs)
    (hq : rs.saveTimeout = none) : fireTimerIfDue st roomId now = (st, []) := by
  unfold fireTimerIfDue
  simp [hroom, hq]

theorem fireTimerIfDue_notdue (st : ServerState) (roomId : String) (now : Nat)
    (rs : RoomState) (dl : Nat) (hroom : st.rooms.get roomId = some rs)
    (hp : rs.saveTimeout = some dl) (hlt : now < dl) :
    fireTimerIfDue st roomId now = (st, []) := by
  unfold fireTimerIfDue
  simp [hroom, hp, Nat.not_le.mpr hlt]

/-- Inside a burst whose gaps stay below the debounce window, no timer
ever fires: no save happens, the database is untouched, and the timer
deadline tracks the last accepted update. -/
theorem runBurst_invariant (sock : Socket) (docIdP : String) (clientId : Nat)
    (roomId : String) :
    ∀ (updates : List (Nat × Bytes)) (st : ServerState) (rs : RoomState) (tprev : Nat),
    st.socketToRoom.get sock.id = some roomId →
    st.rooms.get roomId = some rs →
    rs.saveTimeout = some (tprev + SAVE_DEBOUNCE_MS) →
    (rs.users.get sock.userId).map (·.role) ≠ some Role.VIEWER →
    (∀ p ∈ updates, (Prod.snd p).wf = true) →
    List.Chain (fun a b => a ≤ b ∧ b < a + SAVE_DEBOUNCE_MS) tprev (updates.map Prod.fst) →
    countSaves (runBurst sock docIdP clientId roomId st updates).2 = 0 ∧
    (runBurst sock docIdP clientId roomId st updates).1.db = st.db ∧
    (runBurst sock docIdP clientId roomId st updates).1.socketToRoom = st.socketToRoom ∧
    ∃ rs', (runBurst sock docIdP clientId roomId st updates).1.rooms.get roomId = some rs' ∧
      rs'.users = rs.users ∧ rs'.documentId = rs.documentId ∧
      rs'.saveTimeout = some ((updates.map Prod.fst).getLastD tprev + SAVE_DEBOUNCE_MS) := by
  intro updates
  induction updates with
  | nil =>
    intro st rs tprev hmap hroom hpend hnv hwfs hchain
    exact ⟨rfl, rfl, rfl, rs, hroom, rfl, rfl, hpend⟩
  | cons head rest ih =>
    obtain ⟨t, u⟩ := head
    intro st rs tprev hmap hroom hpend hnv hwfs hchain
    rcases hchain with _ | ⟨⟨hle, hlt⟩, hchain⟩
    have hfire : fireTimerIfDue st roomId t = (st, []) :=
      fireTimerIfDue_notdue st roomId t rs (tprev + SAVE_DEBOUNCE_MS) hroom hpend hlt
    have hupd := handleUpdateOperation_accepted st sock
      ⟨docIdP, u, clientId, t⟩ t roomId rs hmap hroom hnv
      (hwfs (t, u) (List.mem_cons_self _ _))
    have hih := ih
      ({ st with
          documents := st.documents.set rs.documentId
            (((st.documents.get rs.documentId).getD []) ++ u.ops),
          rooms := st.rooms.set roomId (scheduleSave rs t) })
      (scheduleSave rs t) t hmap (AssocMap.get_set_self _ _ _) rfl hnv
      (fun p hp => hwfs p (List.mem_cons_of_mem _ hp)) hchain
    obtain ⟨hsave0, hdb0, hstr0, rs', hrs', husers', hdid', hpend'⟩ := hih
    refine ⟨?_, ?_, ?_, rs', ?_, ?_, ?_, ?_⟩
    · simp only [runBurst, hfire, hupd, countSaves, List.countP_append]
      simp only [countSaves] at hsave0
      simp [hsave0, isSaveEvent, countSaves]
    · simp only [runBurst, hfire, hupd]
      simpa using hdb0
    · simp only [runBurst, hfire, hupd]
      simpa using hstr0
    · simp only [runBurst, hfire, hupd]
      simpa using hrs'
    · simpa [scheduleSave] using husers'
    · simpa [scheduleSave] using hdid'
    · rw [List.map_cons, List.getLastD_cons]
      exact hpend'

/-- C5: for a room with no pending save, a burst of `N ≥ 1` accepted
updates, each arriving within the debounce window of the previous one,
performs no save during the burst (each update cancels and re-arms the
timer) and exactly one durable save once the window has elapsed with no
further updates: one document-saved notification and one operation-log
record. -/
theorem debounced_burst_coalesces_saves (st : ServerState) (sock : Socket)
    (docIdP : String) (clientId : Nat) (roomId : String) (rs : RoomState)
    (t0 : Nat) (u0 : Bytes) (rest : List (Nat × Bytes)) (tEnd : Nat)
    (hmap : st.socketToRoom.get sock.id = some roomId)
    (hroom : st.rooms.get roomId = some rs)
    (hquiet : rs.saveTimeout = none)
    (hnv : (rs.users.get sock.userId).map (·.role) ≠ some Role.VIEWER)
    (hdbs : (st.db.documents.get rs.documentId).isSome = true)
    (hwf0 : u0.wf = true)
    (hwfs : ∀ p ∈ rest, (Prod.snd p).wf = true)
    (hchain : List.Chain (fun a b => a ≤ b ∧ b < a + SAVE_DEBOUNCE_MS) t0
      (rest.map Prod.fst))
    (hend : (rest.map Prod.fst).getLastD t0 + SAVE_DEBOUNCE_MS ≤ tEnd) :
    countSaves (runBurstThenIdle sock docIdP clientId roomId st
      ((t0, u0) :: rest) tEnd).2 = 1 ∧
    (runBurstThenIdle sock docIdP clientId roomId st
      ((t0, u0) :: rest) tEnd).1.db.operations.length =
      st.db.operations.length + 1 := by
  have hfire0 : fireTimerIfDue st roomId t0 = (st, []) :=
    fireTimerIfDue_quiet st roomId t0 rs hroom hquiet
  have hupd : handleUpdateOperation st sock ⟨docIdP, u0, clientId, t0⟩ t0 =
      ({ st with
          documents := st.documents.set rs.documentId
            (((st.documents.get rs.documentId).getD []) ++ u0.ops),
          rooms := st.rooms.set roomId (scheduleSave rs t0) },
       [Event.updateOp roomId sock.id docIdP u0 clientId t0 sock.userId]) := by
    rw [handleUpdateOperation_accepted st sock ⟨docIdP, u0, clientId, t0⟩ t0
      roomId rs hmap hroom hnv hwf0]
  have hinv := runBurst_invariant sock docIdP clientId roomId rest
    ({ st with
        documents := st.documents.set rs.documentId
          (((st.documents.get rs.documentId).getD []) ++ u0.ops),
        rooms := st.rooms.set roomId (scheduleSave rs t0) })
    (scheduleSave rs t0) t0 hmap (AssocMap.get_set_self _ _ _) rfl hnv hwfs hchain
  obtain ⟨hsave0, hdb0, hstr0, rs', hrs', husers', hdid', hpend'⟩ := hinv
  obtain ⟨d, hd⟩ := Option.isSome_iff_exists.mp hdbs
  have hdid2 : rs'.documentId = rs.documentId := by
    simpa [scheduleSave] using hdid'
  unfold runBurstThenIdle
  simp only [runBurst, hfire0, hupd]
  set B := runBurst sock docIdP clientId roomId
    ({ st with
        documents := st.documents.set rs.documentId
          (((st.documents.get rs.documentId).getD []) ++ u0.ops),
        rooms := st.rooms.set roomId (scheduleSave rs t0) }) rest with hB
  have hdb1 : B.1.db = st.db := by simpa using hdb0
  unfold fireTimerIfDue
  simp only [hrs', hpend']
  rw [if_pos hend]
  have hsspec := saveDocument_spec
    { B.1 with rooms := B.1.rooms.set roomId { rs' with saveTimeout := none } }
    roomId tEnd { rs' with saveTimeout := none } d
    (AssocMap.get_set_self _ _ _)
    (by
      show B.1.db.documents.get ({ rs' with saveTimeout := none } : RoomState).documentId = some d
      rw [hdb1]
      simpa [hdid2] using hd)
  rw [hsspec]
  constructor
  · simp only [countSaves, List.countP_append]
    simp only [countSaves] at hsave0
    simp [hsave0, isSaveEvent, countSaves]
  · simp [hdb1]

theorem debounced_burst_coalesces_saves_witness :
    countSaves (runBurstThenIdle aliceSocket "d1" 11 "doc:d1" editorServer
      [(100, ⟨[1], true⟩), (1500, ⟨[2], true⟩), (2500, ⟨[3], true⟩)] 5000).2 = 1 ∧
    (runBurstThenIdle aliceSocket "d1" 11 "doc:d1" editorServer
      [(100, ⟨[1], true⟩), (1500, ⟨[2], true⟩), (2500, ⟨[3], true⟩)] 5000).1.db.operations.length =
      editorServer.db.operations.length + 1 :=
  debounced_burst_coalesces_saves editorServer aliceSocket "d1" 11 "doc:d1"
    { documentId := "d1", users := AssocMap.empty.set "u1" aliceEditor,
      lastSaveTime := 0, saveTimeout := none }
    100 ⟨[1], true⟩ [(1500, ⟨[2], true⟩), (2500, ⟨[3], true⟩)] 5000
    (by decide) (by decide) rfl (by decide) (by decide) rfl
    (by decide)
    (List.Chain.cons ⟨by decide, by decide⟩
      (List.Chain.cons ⟨by decide, by decide⟩ List.Chain.nil))
    (by decide)
